import Mathlib

/-!
Verification of the BitBox Base secure RPC channel subsystem.

The development shallowly embeds the Go packages rpcclient (transport and
RPC client: rpcConn, RPCClient with Ping, Connect, parseMessage, Stop) and
bitboxbase (the facade BitBoxBase with ReindexBitcoin, ResyncBitcoin,
GetHostname and friends).  External effects (HTTP probe results, websocket
dial results, remote call outcomes) are passed in as explicit oracle values;
the functions below mirror the Go control flow over those oracles.
-/

/-- Result of the HTTP GET liveness probe, as seen by Ping: either the GET
itself failed with an error, or it produced a response with a status code. -/
inductive HTTPResult
  | failure (err : String)
  | response (statusCode : Nat)
deriving DecidableEq

/-- Embedding of RPCClient.Ping: on a GET error it returns (false, the error);
on a response with a status code other than 200 it returns (false, nil);
otherwise (true, nil).  The pair mirrors the Go (bool, error) return. -/
def Ping : HTTPResult → Bool × Option String
  | .failure e => (false, some e)
  | .response code => if code ≠ 200 then (false, none) else (true, none)

/-- The RPCClient handle created by NewRPCClient; only the data relevant to
the verified control flow is kept. -/
structure RPCClient where
  address : String
deriving DecidableEq

/-- Embedding of NewRPCClient: it calls Ping and, when Ping does not report
success, returns a nil client together with whatever error Ping returned;
otherwise the constructed client and a nil error. -/
def NewRPCClient (address : String) (probe : HTTPResult) : Option RPCClient × Option String :=
  let p := Ping probe
  if p.1 = false then (none, p.2) else (some ⟨address⟩, none)

/-- The steps of RPCClient.Connect that can be observed in order: the
liveness probe, the websocket dial, the noise handshake, and the creation of
the rpc client plus the start of the websocket read loop. -/
inductive ConnectStep
  | probe
  | wsDial
  | noiseHandshake
  | createClientAndRunLoop
deriving DecidableEq

/-- Oracle inputs for one run of Connect: the probe outcome, whether the
websocket dial fails, and whether the noise handshake fails. -/
structure ConnectEnv where
  pingResult : HTTPResult
  dialErr : Option String
  noiseErr : Option String
deriving DecidableEq

/-- Embedding of RPCClient.Connect: run Ping and stop unless it succeeded,
then dial the websocket, then run the noise handshake, then create the rpc
client and start the read loop.  The first component records the steps
actually performed, in order; the second is the returned error. -/
def Connect (env : ConnectEnv) : List ConnectStep × Option String :=
  let p := Ping env.pingResult
  if p.1 = false then ([.probe], p.2)
  else
    match env.dialErr with
    | some _ => ([.probe, .wsDial], some "rpcClient: failed to create new websocket client")
    | none =>
      match env.noiseErr with
      | some e => ([.probe, .wsDial, .noiseHandshake], some e)
      | none => ([.probe, .wsDial, .noiseHandshake, .createClientAndRunLoop], none)

/-- Modelled from the spec: the opcode constant OpUCanHasSampleInfo lives in
the rpcmessages package, which is not among the provided sources; the spec
only fixes that each opcode is a distinct single leading byte. -/
def OpUCanHasSampleInfo : Nat := 97

/-- Modelled from the spec: the opcode constant OpUCanHasVerificationProgress,
a distinct single leading byte (see OpUCanHasSampleInfo). -/
def OpUCanHasVerificationProgress : Nat := 98

/-- Modelled from the spec: the opcode constant OpRPCCall, a distinct single
leading byte (see OpUCanHasSampleInfo). -/
def OpRPCCall : Nat := 114

/-- The observable effect of parseMessage on one decrypted inbound message:
drop an empty message, fire the sample-info event, fire the
verification-progress event, forward the remainder to the RPC read channel,
or log and drop a message with an unknown opcode. -/
inductive ParseAction
  | droppedEmpty
  | eventSampleInfo
  | eventVerificationProgress
  | rpcForward (payload : List Nat)
  | droppedUnknown
deriving DecidableEq

/-- Embedding of RPCClient.parseMessage.  Messages are byte lists; the result
is none exactly when the Go code would index past the end of the message
(which the length guard prevents), and otherwise describes the dispatch. -/
def parseMessage (message : List Nat) : Option ParseAction :=
  if message.length = 0 then
    some .droppedEmpty
  else
    match message.head? with
    | none => none
    | some opCode =>
      if opCode = OpUCanHasSampleInfo then some .eventSampleInfo
      else if opCode = OpUCanHasVerificationProgress then some .eventVerificationProgress
      else if opCode = OpRPCCall then some (.rpcForward message.tail)
      else some .droppedUnknown

/-- The read loop applied to a sequence of inbound decrypted messages: each
is classified by parseMessage and the loop continues with the rest. -/
def processMessages (msgs : List (List Nat)) : List ParseAction :=
  msgs.filterMap parseMessage

/-- State of a Go channel: open, or closed by the close builtin. -/
inductive ChanState
  | opened
  | closedCh
deriving DecidableEq

/-- Go close(ch) on a channel value: closing an already-closed channel
panics, modelled as none. -/
def chanClose : ChanState → Option ChanState
  | .opened => some .closedCh
  | .closedCh => none

/-- Embedding of the rpcConn transport state: the closeChan field, which is
either nil or a channel in some state. -/
structure rpcConn where
  closeChan : Option ChanState
deriving DecidableEq

/-- Embedding of newRPCConn: the close channel starts out freshly made. -/
def newRPCConn : rpcConn := ⟨some .opened⟩

/-- Embedding of rpcConn.Close: when closeChan is non-nil it is closed and
the field set to nil, else nothing happens; the return value is always a nil
error.  The result is none on a panic (never reached thanks to the nil
guard); the boolean records whether a closed notification was emitted. -/
def rpcConn.Close (conn : rpcConn) : Option (rpcConn × Option String × Bool) :=
  match conn.closeChan with
  | some ch =>
    match chanClose ch with
    | some _ => some (⟨none⟩, none, true)
    | none => none
  | none => some (conn, none, false)

/-- Go builtin copy for byte slices: copies element by element until either
the destination or the source is exhausted, returning the new destination
contents and the number of elements copied. -/
def goCopy : List Nat → List Nat → List Nat × Nat
  | [], _ => ([], 0)
  | ds, [] => (ds, 0)
  | _ :: ds, s :: ss =>
    let r := goCopy ds ss
    (s :: r.1, r.2 + 1)

/-- Embedding of rpcConn.Read: receive a message from the read channel (the
message parameter), copy it into the caller buffer p, and return the copy
count with a nil error. -/
def rpcConn.Read (p message : List Nat) : Nat × Option String :=
  ((goCopy p message).2, none)

/-- Modelled from the spec: the rpcmessages.ErrorResponse payload shape
(Success flag plus message), which is not among the provided sources. -/
structure ErrorResponse where
  Success : Bool
  Message : String
deriving DecidableEq

/-- Modelled from the spec: the rpcmessages.GetHostnameResponse payload shape
(an embedded ErrorResponse plus the hostname), not among the provided
sources. -/
structure GetHostnameResponse where
  errorResponse : ErrorResponse
  Hostname : String
deriving DecidableEq

/-- Modelled from the spec: the bitboxbasestatus.Status values used by the
provided sources (StatusConnected, StatusInitialized) plus a disconnected
value; the status package itself is not among the provided sources. -/
inductive Status
  | connected
  | initialized
  | disconnected
deriving DecidableEq

/-- Outcome of one synchronous net/rpc call as seen by the client: a
transport error, or a decoded reply value. -/
inductive CallOutcome (α : Type)
  | transportError (err : String)
  | reply (r : α)
deriving DecidableEq

/-- Embedding of RPCClient.ReindexBitcoin: on a transport error it returns
the zero ErrorResponse and the error; otherwise the reply and a nil error. -/
def RPCClient.ReindexBitcoin : CallOutcome ErrorResponse → ErrorResponse × Option String
  | .transportError e => (⟨false, ""⟩, some e)
  | .reply r => (r, none)

/-- Embedding of RPCClient.ResyncBitcoin, same shape as ReindexBitcoin. -/
def RPCClient.ResyncBitcoin : CallOutcome ErrorResponse → ErrorResponse × Option String
  | .transportError e => (⟨false, ""⟩, some e)
  | .reply r => (r, none)

/-- Embedding of RPCClient.GetHostname: on a transport error it returns the
zero GetHostnameResponse and the error; otherwise the reply and nil. -/
def RPCClient.GetHostname : CallOutcome GetHostnameResponse → GetHostnameResponse × Option String
  | .transportError e => (⟨⟨false, ""⟩, ""⟩, some e)
  | .reply r => (r, none)

/-- Errors returned by the BitBoxBase facade: the non-active-base error, a
wrapped transport error, or an ErrorResponse returned as an error value. -/
inductive BaseError
  | notActive
  | transport (err : String)
  | errResp (r : ErrorResponse)
deriving DecidableEq

/-- The BitBoxBase facade state relevant to the verified claims: the
connection status and the active flag. -/
structure BitBoxBase where
  status : Status
  active : Bool
deriving DecidableEq

/-- Embedding of BitBoxBase.changeStatus: overwrite the status field (the
status-change event fired alongside is not tracked here). -/
def BitBoxBase.changeStatus (base : BitBoxBase) (s : Status) : BitBoxBase :=
  { base with status := s }

/-- Embedding of BitBoxBase.ReindexBitcoin: refuse when not active; run the
rpc call; unconditionally change the status to initialized; then return the
transport error, the unsuccessful reply as an error, or nil. -/
def BitBoxBase.ReindexBitcoin (base : BitBoxBase) (outcome : CallOutcome ErrorResponse) :
    BitBoxBase × Option BaseError :=
  if base.active = false then (base, some .notActive)
  else
    let call := RPCClient.ReindexBitcoin outcome
    let base2 := base.changeStatus .initialized
    match call.2 with
    | some e => (base2, some (.transport e))
    | none => if call.1.Success = false then (base2, some (.errResp call.1)) else (base2, none)

/-- Embedding of BitBoxBase.ResyncBitcoin, same control flow as
ReindexBitcoin including the unconditional status change. -/
def BitBoxBase.ResyncBitcoin (base : BitBoxBase) (outcome : CallOutcome ErrorResponse) :
    BitBoxBase × Option BaseError :=
  if base.active = false then (base, some .notActive)
  else
    let call := RPCClient.ResyncBitcoin outcome
    let base2 := base.changeStatus .initialized
    match call.2 with
    | some e => (base2, some (.transport e))
    | none => if call.1.Success = false then (base2, some (.errResp call.1)) else (base2, none)

/-- Embedding of BitBoxBase.GetHostname: refuse when not active; run the rpc
call; on a transport error or an unsuccessful reply return the empty string
and the error; otherwise the hostname and nil.  The first component is the
facade state afterwards (GetHostname never mutates it). -/
def BitBoxBase.GetHostname (base : BitBoxBase) (outcome : CallOutcome GetHostnameResponse) :
    BitBoxBase × String × Option BaseError :=
  if base.active = false then (base, "", some .notActive)
  else
    let call := RPCClient.GetHostname outcome
    match call.2 with
    | some e => (base, "", some (.transport e))
    | none =>
      if call.1.errorResponse.Success = false then (base, "", some (.errResp call.1.errorResponse))
      else (base, call.1.Hostname, none)

/-- A remote call outcome counts as failed when it is a transport error or a
reply whose Success flag is false. -/
def callFailed : CallOutcome ErrorResponse → Bool
  | .transportError _ => true
  | .reply r => !r.Success

/-- A GetHostname call outcome counts as failed when it is a transport error
or a reply whose embedded ErrorResponse has Success false. -/
def hostnameCallFailed : CallOutcome GetHostnameResponse → Bool
  | .transportError _ => true
  | .reply r => !r.errorResponse.Success

/-- Modelled from the spec: the pairing store maps a RemoteIdentity (its
stable id) to the pinned remote long-term public key; the persistence layer
is not among the provided sources. -/
structure PairingStore where
  pinned : List (String × List Nat)
deriving DecidableEq

/-- Modelled from the spec: Lookup(identity) returns the pinned key when one
exists. -/
def PairingStore.lookup (store : PairingStore) (id : String) : Option (List Nat) :=
  List.lookup id store.pinned

/-- Modelled from the spec: Pin(identity, pubkey) records the key for the
identity, superseding any previous entry. -/
def PairingStore.pin (store : PairingStore) (id : String) (key : List Nat) : PairingStore :=
  ⟨(id, key) :: store.pinned⟩

/-- Result of checking the handshake-negotiated remote static key against
the pairing store. -/
inductive HandshakeResult
  | firstUsePinned
  | accepted
  | rePaired
  | securityError
deriving DecidableEq

/-- A handshake result admits RPC traffic unless it is the security error
that tears the connection down. -/
def HandshakeResult.rpcAllowed : HandshakeResult → Bool
  | .securityError => false
  | _ => true

/-- Modelled from the spec: the pinned-key check of the noise handshake
(initializeNoise is not among the provided sources).  With no pinned key the
presented key is pinned (trust on first use); with a pinned key a matching
presentation is accepted; a differing presentation is re-pinned only on an
explicit user re-pair and otherwise rejected with a security error before
any RPC payload is processed. -/
def verifyRemoteStaticKey (store : PairingStore) (id : String) (presented : List Nat)
    (userRePair : Bool) : PairingStore × HandshakeResult :=
  match store.lookup id with
  | none => (store.pin id presented, .firstUsePinned)
  | some k =>
    if presented = k then (store, .accepted)
    else if userRePair then (store.pin id presented, .rePaired)
    else (store, .securityError)

/-- Helper: the count returned by goCopy is the minimum of the two lengths. -/
theorem goCopy_count (ds ss : List Nat) : (goCopy ds ss).2 = min ds.length ss.length := by
  induction ds generalizing ss with
  | nil => simp [goCopy]
  | cons d ds ih =>
    cases ss with
    | nil => simp [goCopy]
    | cons s ss => simp [goCopy, ih, Nat.succ_min_succ]

/-- C1: for a RemoteIdentity with a pinned remote static public key, a
handshake presenting a different static key is rejected with a security
error, RPC traffic is not admitted, and the store (hence the pinned key) is
left unchanged when the user has not explicitly re-paired. -/
theorem C1_pinned_mismatch_rejected (store : PairingStore) (id : String)
    (presented k : List Nat) (hpin : store.lookup id = some k) (hne : presented ≠ k) :
    verifyRemoteStaticKey store id presented false = (store, .securityError) ∧
    HandshakeResult.rpcAllowed (verifyRemoteStaticKey store id presented false).2 = false := by
  unfold verifyRemoteStaticKey
  rw [hpin]
  simp [hne, HandshakeResult.rpcAllowed]

/-- Witness for C1 at a concrete pinned store and mismatching key. -/
theorem C1_witness :
    PairingStore.lookup ⟨[("base-1", [1, 2, 3])]⟩ "base-1" = some [1, 2, 3] ∧
    ([9] : List Nat) ≠ [1, 2, 3] ∧
    (verifyRemoteStaticKey ⟨[("base-1", [1, 2, 3])]⟩ "base-1" [9] false =
      (⟨[("base-1", [1, 2, 3])]⟩, .securityError) ∧
     HandshakeResult.rpcAllowed
       (verifyRemoteStaticKey ⟨[("base-1", [1, 2, 3])]⟩ "base-1" [9] false).2 = false) :=
  ⟨by decide, by decide,
   C1_pinned_mismatch_rejected ⟨[("base-1", [1, 2, 3])]⟩ "base-1" [9] [1, 2, 3]
     (by decide) (by decide)⟩

/-- C2 (failing input): when the liveness probe yields an HTTP response with
status 404, Connect stops after the probe but returns a nil error, because
Ping reports (false, nil) for any non-200 status and Connect passes that nil
error through. -/
theorem C2_connect_non200_returns_nil_error :
    Connect ⟨HTTPResult.response 404, none, none⟩ = ([ConnectStep.probe], none) ∧
    Ping (HTTPResult.response 404) = (false, none) := by
  constructor <;> rfl

/-- C3: parseMessage classifies a non-empty message by its first byte: the
sample-info opcode fires the sample-info event, the verification-progress
opcode fires the verification-progress event, the RPC opcode forwards the
remainder to the RPC read channel, and any other first byte is logged and
dropped while the read loop goes on to process the subsequent frames. -/
theorem C3_parseMessage_classification (b : Nat) (rest : List Nat) (later : List (List Nat)) :
    parseMessage (OpUCanHasSampleInfo :: rest) = some ParseAction.eventSampleInfo ∧
    parseMessage (OpUCanHasVerificationProgress :: rest) =
      some ParseAction.eventVerificationProgress ∧
    parseMessage (OpRPCCall :: rest) = some (ParseAction.rpcForward rest) ∧
    (b ≠ OpUCanHasSampleInfo → b ≠ OpUCanHasVerificationProgress → b ≠ OpRPCCall →
      parseMessage (b :: rest) = some ParseAction.droppedUnknown ∧
      processMessages ((b :: rest) :: later) =
        ParseAction.droppedUnknown :: processMessages later) := by
  refine ⟨by simp [parseMessage, OpUCanHasSampleInfo, OpUCanHasVerificationProgress, OpRPCCall],
    by simp [parseMessage, OpUCanHasSampleInfo, OpUCanHasVerificationProgress, OpRPCCall],
    by simp [parseMessage, OpUCanHasSampleInfo, OpUCanHasVerificationProgress, OpRPCCall],
    fun h1 h2 h3 => ⟨?_, ?_⟩⟩
  · simp [parseMessage, h1, h2, h3]
  · simp [processMessages, parseMessage, h1, h2, h3]

/-- Witness for C3 at the concrete unknown opcode 0 followed by more
frames. -/
theorem C3_witness :
    ((0 : Nat) ≠ OpUCanHasSampleInfo ∧ (0 : Nat) ≠ OpUCanHasVerificationProgress ∧
      (0 : Nat) ≠ OpRPCCall) ∧
    (parseMessage (0 :: [7]) = some ParseAction.droppedUnknown ∧
     processMessages ((0 :: [7]) :: [[114, 5]]) =
       ParseAction.droppedUnknown :: processMessages [[114, 5]]) :=
  ⟨⟨by decide, by decide, by decide⟩,
   (C3_parseMessage_classification 0 [7] [[114, 5]]).2.2.2 (by decide) (by decide) (by decide)⟩

/-- C4 (counterexample): with an active base whose status is connected, a
ReindexBitcoin call that fails with a transport error still changes the
status (to initialized), refuting the claim that the status is unchanged
when the call fails. -/
theorem C4_counterexample :
    (BitBoxBase.ReindexBitcoin ⟨Status.connected, true⟩
      (CallOutcome.transportError "connection lost")).2.isSome = true ∧
    (BitBoxBase.ReindexBitcoin ⟨Status.connected, true⟩
      (CallOutcome.transportError "connection lost")).1.status ≠ Status.connected := by
  constructor
  · rfl
  · intro h
    simp [BitBoxBase.ReindexBitcoin, RPCClient.ReindexBitcoin, BitBoxBase.changeStatus] at h

/-- C4 (amended): a failing ReindexBitcoin, ResyncBitcoin or GetHostname on
an active base returns a non-nil error to its caller; GetHostname leaves the
base unchanged, but ReindexBitcoin and ResyncBitcoin unconditionally set the
status to initialized even though the call failed. -/
theorem C4_amended (base : BitBoxBase) (oR oS : CallOutcome ErrorResponse)
    (oH : CallOutcome GetHostnameResponse) (hactive : base.active = true)
    (hR : callFailed oR = true) (hS : callFailed oS = true)
    (hH : hostnameCallFailed oH = true) :
    ((BitBoxBase.ReindexBitcoin base oR).2.isSome = true ∧
      (BitBoxBase.ReindexBitcoin base oR).1.status = Status.initialized) ∧
    ((BitBoxBase.ResyncBitcoin base oS).2.isSome = true ∧
      (BitBoxBase.ResyncBitcoin base oS).1.status = Status.initialized) ∧
    ((BitBoxBase.GetHostname base oH).2.2.isSome = true ∧
      (BitBoxBase.GetHostname base oH).1 = base) := by
  refine ⟨⟨?_, ?_⟩, ⟨?_, ?_⟩, ⟨?_, ?_⟩⟩ <;>
    first
    | (cases oR with
       | transportError e =>
         simp [BitBoxBase.ReindexBitcoin, RPCClient.ReindexBitcoin, hactive,
           BitBoxBase.changeStatus]
       | reply r =>
         simp [callFailed] at hR
         simp [BitBoxBase.ReindexBitcoin, RPCClient.ReindexBitcoin, hactive, hR,
           BitBoxBase.changeStatus])
    | (cases oS with
       | transportError e =>
         simp [BitBoxBase.ResyncBitcoin, RPCClient.ResyncBitcoin, hactive,
           BitBoxBase.changeStatus]
       | reply r =>
         simp [callFailed] at hS
         simp [BitBoxBase.ResyncBitcoin, RPCClient.ResyncBitcoin, hactive, hS,
           BitBoxBase.changeStatus])
    | (cases oH with
       | transportError e =>
         simp [BitBoxBase.GetHostname, RPCClient.GetHostname, hactive]
       | reply r =>
         simp [hostnameCallFailed] at hH
         simp [BitBoxBase.GetHostname, RPCClient.GetHostname, hactive, hH])

/-- Witness for C4 amended at a concrete active base and failing outcomes. -/
theorem C4_amended_witness :
    ((⟨Status.connected, true⟩ : BitBoxBase).active = true ∧
      callFailed (CallOutcome.transportError "e1") = true ∧
      callFailed (CallOutcome.reply ⟨false, "script failed"⟩) = true ∧
      hostnameCallFailed (CallOutcome.transportError "e3") = true) ∧
    (((BitBoxBase.ReindexBitcoin ⟨Status.connected, true⟩
        (CallOutcome.transportError "e1")).2.isSome = true ∧
      (BitBoxBase.ReindexBitcoin ⟨Status.connected, true⟩
        (CallOutcome.transportError "e1")).1.status = Status.initialized) ∧
     ((BitBoxBase.ResyncBitcoin ⟨Status.connected, true⟩
        (CallOutcome.reply ⟨false, "script failed"⟩)).2.isSome = true ∧
      (BitBoxBase.ResyncBitcoin ⟨Status.connected, true⟩
        (CallOutcome.reply ⟨false, "script failed"⟩)).1.status = Status.initialized) ∧
     ((BitBoxBase.GetHostname ⟨Status.connected, true⟩
        (CallOutcome.transportError "e3")).2.2.isSome = true ∧
      (BitBoxBase.GetHostname ⟨Status.connected, true⟩
        (CallOutcome.transportError "e3")).1 = ⟨Status.connected, true⟩)) :=
  ⟨⟨rfl, rfl, rfl, rfl⟩,
   C4_amended ⟨Status.connected, true⟩ (CallOutcome.transportError "e1")
     (CallOutcome.reply ⟨false, "script failed"⟩) (CallOutcome.transportError "e3")
     rfl rfl rfl rfl⟩

/-- C5: closing the transport is idempotent: whenever a Close call completed
without panicking, a second Close on the resulting transport is a no-op that
does not panic, returns a nil error, and emits no duplicate closed
notification. -/
theorem C5_close_idempotent (conn conn2 : rpcConn) (err : Option String) (notified : Bool)
    (h : rpcConn.Close conn = some (conn2, err, notified)) :
    rpcConn.Close conn2 = some (conn2, none, false) := by
  cases conn with
  | mk closeChan =>
    cases closeChan with
    | none =>
      simp [rpcConn.Close] at h
      simp [← h.1, rpcConn.Close]
    | some ch =>
      cases ch with
      | opened =>
        simp [rpcConn.Close, chanClose] at h
        simp [← h.1, rpcConn.Close]
      | closedCh =>
        simp [rpcConn.Close, chanClose] at h

/-- Witness for C5: closing the fresh transport once and then again. -/
theorem C5_witness :
    rpcConn.Close newRPCConn = some (⟨none⟩, none, true) ∧
    rpcConn.Close ⟨none⟩ = some ((⟨none⟩ : rpcConn), none, false) :=
  ⟨rfl, C5_close_idempotent newRPCConn ⟨none⟩ none true rfl⟩

/-- C6: every run of Connect performs a prefix of the step sequence probe,
websocket dial, noise handshake, client creation and read loop start, in
that order; a failed probe stops after the probe, a failed dial prevents the
handshake, and any error prevents the client creation and read loop. -/
theorem C6_connect_step_order (env : ConnectEnv) :
    ((Connect env).1 = [ConnectStep.probe] ∨
     (Connect env).1 = [ConnectStep.probe, ConnectStep.wsDial] ∨
     (Connect env).1 = [ConnectStep.probe, ConnectStep.wsDial, ConnectStep.noiseHandshake] ∨
     (Connect env).1 = [ConnectStep.probe, ConnectStep.wsDial, ConnectStep.noiseHandshake,
       ConnectStep.createClientAndRunLoop]) ∧
    ((Ping env.pingResult).1 = false → (Connect env).1 = [ConnectStep.probe]) ∧
    ((Connect env).2.isSome = true →
      ConnectStep.createClientAndRunLoop ∉ (Connect env).1) ∧
    ((Ping env.pingResult).1 = true → env.dialErr.isSome = true →
      ConnectStep.noiseHandshake ∉ (Connect env).1 ∧ (Connect env).2.isSome = true) := by
  cases env with
  | mk pingResult dialErr noiseErr =>
    by_cases hp : (Ping pingResult).1 = false
    · refine ⟨Or.inl ?_, fun _ => ?_, fun _ => ?_, fun ht _ => ?_⟩ <;>
        simp_all [Connect]
    · cases dialErr with
      | some d =>
        refine ⟨Or.inr (Or.inl ?_), fun hf => absurd hf hp, fun _ => ?_, fun _ _ => ⟨?_, ?_⟩⟩ <;>
          simp_all [Connect]
      | none =>
        cases noiseErr with
        | some e =>
          refine ⟨Or.inr (Or.inr (Or.inl ?_)), fun hf => absurd hf hp, fun _ => ?_,
            fun _ hd => absurd hd (by simp)⟩ <;> simp_all [Connect]
        | none =>
          refine ⟨Or.inr (Or.inr (Or.inr ?_)), fun hf => absurd hf hp, fun hs => ?_,
            fun _ hd => absurd hd (by simp)⟩ <;> simp_all [Connect]

/-- Witness for C6 at a probe that fails with a GET error. -/
theorem C6_witness :
    (Ping (HTTPResult.failure "no response")).1 = false ∧
    (Connect ⟨HTTPResult.failure "no response", none, none⟩).1 = [ConnectStep.probe] :=
  ⟨rfl, (C6_connect_step_order ⟨HTTPResult.failure "no response", none, none⟩).2.1 rfl⟩

/-- C7: GetHostname returns a nil error exactly when the base is active, the
rpc call succeeded at the transport level, and the reply reports success; in
every other case it returns the empty string with a non-nil error, and in
the success case it returns the hostname of the reply. -/
theorem C7_gethostname_spec (base : BitBoxBase) (outcome : CallOutcome GetHostnameResponse) :
    ((BitBoxBase.GetHostname base outcome).2.2 = none ↔
      (base.active = true ∧
        ∃ r, outcome = CallOutcome.reply r ∧ r.errorResponse.Success = true)) ∧
    ((BitBoxBase.GetHostname base outcome).2.2 ≠ none →
      (BitBoxBase.GetHostname base outcome).2.1 = "") ∧
    (∀ r, outcome = CallOutcome.reply r → base.active = true →
      r.errorResponse.Success = true →
      (BitBoxBase.GetHostname base outcome).2.1 = r.Hostname ∧
      (BitBoxBase.GetHostname base outcome).2.2 = none) := by
  by_cases ha : base.active = false
  · have ha2 : base.active ≠ true := by simp [ha]
    refine ⟨?_, ?_, ?_⟩
    · simp [BitBoxBase.GetHostname, ha, ha2]
    · simp [BitBoxBase.GetHostname, ha]
    · intro r hr hactive
      exact absurd hactive ha2
  · have ha2 : base.active = true := by
      cases hb : base.active with
      | false => exact absurd hb ha
      | true => rfl
    cases outcome with
    | transportError e =>
      refine ⟨?_, ?_, ?_⟩
      · simp [BitBoxBase.GetHostname, ha, RPCClient.GetHostname]
      · simp [BitBoxBase.GetHostname, ha, RPCClient.GetHostname]
      · intro r hr
        exact absurd hr (by simp)
    | reply r =>
      by_cases hs : r.errorResponse.Success = false
      · have hs2 : r.errorResponse.Success ≠ true := by simp [hs]
        refine ⟨?_, ?_, ?_⟩
        · simp [BitBoxBase.GetHostname, ha, RPCClient.GetHostname, hs, hs2]
        · simp [BitBoxBase.GetHostname, ha, RPCClient.GetHostname, hs]
        · intro r2 hr2 _ hsucc
          have : r2 = r := by
            injection hr2 with h
            exact h.symm
          subst this
          exact absurd hsucc hs2
      · have hs2 : r.errorResponse.Success = true := by
          cases hb : r.errorResponse.Success with
          | false => exact absurd hb hs
          | true => rfl
        refine ⟨?_, ?_, ?_⟩
        · simp [BitBoxBase.GetHostname, ha, RPCClient.GetHostname, hs2, ha2]
        · simp [BitBoxBase.GetHostname, ha, RPCClient.GetHostname, hs2]
        · intro r2 hr2 _ _
          have : r2 = r := by
            injection hr2 with h
            exact h.symm
          subst this
          simp [BitBoxBase.GetHostname, ha, RPCClient.GetHostname, hs2]

/-- Witness for C7 at an active base and a successful reply. -/
theorem C7_witness :
    ((⟨Status.connected, true⟩ : BitBoxBase).active = true ∧
      (⟨⟨true, ""⟩, "myBase"⟩ : GetHostnameResponse).errorResponse.Success = true) ∧
    ((BitBoxBase.GetHostname ⟨Status.connected, true⟩
        (CallOutcome.reply ⟨⟨true, ""⟩, "myBase"⟩)).2.1 = "myBase" ∧
      (BitBoxBase.GetHostname ⟨Status.connected, true⟩
        (CallOutcome.reply ⟨⟨true, ""⟩, "myBase"⟩)).2.2 = none) :=
  ⟨⟨rfl, rfl⟩,
   (C7_gethostname_spec ⟨Status.connected, true⟩
       (CallOutcome.reply ⟨⟨true, ""⟩, "myBase"⟩)).2.2
     ⟨⟨true, ""⟩, "myBase"⟩ rfl rfl rfl⟩

/-- C8: a probe response with a status code other than 200 makes Ping return
(false, nil), and consequently NewRPCClient returns a nil client together
with a nil error. -/
theorem C8_non200_nil_client_nil_error (address : String) (code : Nat) (h : code ≠ 200) :
    Ping (HTTPResult.response code) = (false, none) ∧
    NewRPCClient address (HTTPResult.response code) = (none, none) := by
  constructor
  · simp [Ping, h]
  · simp [NewRPCClient, Ping, h]

/-- Witness for C8 at status code 404. -/
theorem C8_witness :
    (404 : Nat) ≠ 200 ∧
    (Ping (HTTPResult.response 404) = (false, none) ∧
      NewRPCClient "192.168.0.2:8845" (HTTPResult.response 404) = (none, none)) :=
  ⟨by decide, C8_non200_nil_client_nil_error "192.168.0.2:8845" 404 (by decide)⟩

/-- C9: parseMessage is total and memory safe on every inbound byte
sequence: it never performs the out-of-bounds access modelled by none, the
empty message is logged and dropped without dispatching anything, and a
forwarded RPC payload is exactly the tail of the original message (no byte
beyond the message is ever read). -/
theorem C9_parseMessage_safe (message : List Nat) :
    (parseMessage message).isSome = true ∧
    parseMessage [] = some ParseAction.droppedEmpty ∧
    (∀ p, parseMessage message = some (ParseAction.rpcForward p) →
      message = OpRPCCall :: p) := by
  refine ⟨?_, by simp [parseMessage], ?_⟩
  · cases message with
    | nil => simp [parseMessage]
    | cons b rest =>
      by_cases h1 : b = OpUCanHasSampleInfo
      · simp [parseMessage, h1]
      · by_cases h2 : b = OpUCanHasVerificationProgress
        · simp [parseMessage, OpUCanHasSampleInfo, OpUCanHasVerificationProgress, h1, h2]
        · by_cases h3 : b = OpRPCCall
          · simp [parseMessage, OpUCanHasSampleInfo, OpUCanHasVerificationProgress,
              OpRPCCall, h1, h2, h3]
          · simp [parseMessage, h1, h2, h3]
  · intro p hp
    cases message with
    | nil => simp [parseMessage] at hp
    | cons b rest =>
      by_cases h1 : b = OpUCanHasSampleInfo
      · simp [parseMessage, h1] at hp
      · by_cases h2 : b = OpUCanHasVerificationProgress
        · simp [parseMessage, OpUCanHasSampleInfo, OpUCanHasVerificationProgress,
            h1, h2] at hp
        · by_cases h3 : b = OpRPCCall
          · simp [parseMessage, OpUCanHasSampleInfo, OpUCanHasVerificationProgress,
              OpRPCCall, h1, h2, h3] at hp
            rw [h3, hp]
          · simp [parseMessage, h1, h2, h3] at hp

/-- Witness for C9 at a concrete RPC frame. -/
theorem C9_witness :
    (parseMessage [114, 7]).isSome = true ∧
    parseMessage [114, 7] = some (ParseAction.rpcForward [7]) ∧
    ([114, 7] : List Nat) = OpRPCCall :: [7] :=
  ⟨(C9_parseMessage_safe [114, 7]).1, by decide,
   (C9_parseMessage_safe [114, 7]).2.2 [7] (by decide)⟩

/-- C10: rpcConn.Read never returns an error: for every caller buffer p and
received message, it reports min(length of p, length of message) copied
bytes and a nil error, so a message longer than the buffer is silently
truncated. -/
theorem C10_read_min_nil_error (p message : List Nat) :
    rpcConn.Read p message = (min p.length message.length, none) := by
  simp [rpcConn.Read, goCopy_count]
